import Mathlib

/-!
Shallow embedding of the `rust-state-machine` runtime modules.

Each Rust pallet (`src/balances.rs`, `src/system.rs`, `src/proof_of_existence.rs`)
becomes a Lean structure whose `BTreeMap` storage is modelled extensionally as a
function into `Option`, and each `&mut self` method becomes a state-passing
function.  Fallible operations return the new state together with a
`DispatchResult`; on the error paths the returned state is the input state,
mirroring the Rust early returns that perform no mutation.

The pallets are generic over the `Config` associated types.  `AccountId` and
`Content` stay generic (with decidable equality, matching the `Ord` bound).
`Balance` is modelled as `Nat` with explicit `u128` checked arithmetic, the
instantiation used by the repository (`type Balance = u128`).  `BlockNumber`
and `Nonce` are modelled as `Nat`, the spec's unsigned scalars with zero and
successor; their overflow behaviour is unspecified by design.
-/

/-- The u128 modulus: `Balance` is instantiated at `u128` in the repository. -/
def U128_MOD : Nat := 2 ^ 128

/-- Rust `u128::checked_sub`: `some (a - b)` unless the subtraction underflows. -/
def checked_sub (a b : Nat) : Option Nat :=
  if b ≤ a then some (a - b) else none

/-- Rust `u128::checked_add`: `some (a + b)` unless the sum exceeds `u128::MAX`. -/
def checked_add (a b : Nat) : Option Nat :=
  if a + b < U128_MOD then some (a + b) else none

/-- Modelled from the spec: `src/support.rs` is not present in the sources, but
every pallet returns `crate::support::DispatchResult`, a `Result<(), Error>`
whose errors are the static strings used in the pallets. -/
abbrev DispatchResult := Except String Unit

/-- The spec's `InsufficientFunds` error: the string produced at
`balances.rs` when `checked_sub` fails. -/
def InsufficientFunds : String := "Not enough funds."

/-- The spec's `BalanceOverflow` error: the string produced at
`balances.rs` when `checked_add` fails. -/
def BalanceOverflow : String := "Funds exceed limit."

/-- The spec's `ClaimAlreadyExists` error string from `proof_of_existence.rs`. -/
def ClaimAlreadyExists : String := "claim already exist"

/-- The spec's `ClaimNotFound` error string from `proof_of_existence.rs`. -/
def ClaimNotFound : String := "claim does not exist"

/-- The spec's `NotClaimOwner` error string from `proof_of_existence.rs`. -/
def NotClaimOwner : String := "Caller is not the owner"

/-- Balances module state: a storage mapping from accounts to balances
(`balances: BTreeMap<T::AccountId, T::Balance>`). -/
structure BalancesPallet (A : Type) where
  balances : A → Option Nat

/-- `Pallet::new`: empty balances map. -/
def BalancesPallet.new (A : Type) : BalancesPallet A :=
  ⟨fun _ => none⟩

/-- `Pallet::set_balance`: unconditional insert-or-replace of `who ↦ amount`. -/
def BalancesPallet.set_balance {A : Type} [DecidableEq A] (p : BalancesPallet A)
    (who : A) (amount : Nat) : BalancesPallet A :=
  ⟨fun x => if x = who then some amount else p.balances x⟩

/-- `Pallet::balance`: stored balance of `who`, or zero if absent
(`unwrap_or(&zero)`). -/
def BalancesPallet.balance {A : Type} (p : BalancesPallet A) (who : A) : Nat :=
  (p.balances who).getD 0

/-- `Pallet::transfer`: read both balances from the pre-state, check the
subtraction then the addition, and only after both checks succeed write the
caller's balance and then the recipient's balance. -/
def BalancesPallet.transfer {A : Type} [DecidableEq A] (p : BalancesPallet A)
    (caller to_account : A) (amount : Nat) : BalancesPallet A × DispatchResult :=
  let caller_balance := p.balance caller
  let to_balance := p.balance to_account
  match checked_sub caller_balance amount with
  | none => (p, Except.error InsufficientFunds)
  | some new_caller_balance =>
    match checked_add to_balance amount with
    | none => (p, Except.error BalanceOverflow)
    | some new_to_balance =>
      ((p.set_balance caller new_caller_balance).set_balance to_account new_to_balance,
        Except.ok ())

/-- The reachable-state invariant enforced in Rust by the `u128` value type:
every stored balance fits in `u128`. -/
def BalancesPallet.InU128Range {A : Type} (p : BalancesPallet A) : Prop :=
  ∀ x v, p.balances x = some v → v < U128_MOD

/-- `balances::Call`: the closed set of dispatchable balances operations; the
caller is supplied by the dispatcher, not embedded in the payload. -/
inductive BalancesCall (A : Type) where
  | Transfer : A → Nat → BalancesCall A

/-- `impl Dispatch for balances::Pallet`: route `Call::Transfer` to
`transfer`, propagating the error unchanged (`self.transfer(..)?; Ok(())`). -/
def BalancesPallet.dispatch {A : Type} [DecidableEq A] (p : BalancesPallet A)
    (caller : A) (call : BalancesCall A) : BalancesPallet A × DispatchResult :=
  match call with
  | BalancesCall.Transfer to_account amount =>
    match p.transfer caller to_account amount with
    | (p1, Except.error e) => (p1, Except.error e)
    | (p1, Except.ok _) => (p1, Except.ok ())

/-- System module state: the current block number and a map from accounts to
their nonces. -/
structure SystemPallet (A : Type) where
  block_number : Nat
  nonce : A → Option Nat

/-- `Pallet::new`: block number zero, empty nonce map. -/
def SystemPallet.new (A : Type) : SystemPallet A :=
  ⟨0, fun _ => none⟩

/-- `Pallet::inc_block_number`: increase the block number by one. -/
def SystemPallet.inc_block_number {A : Type} (p : SystemPallet A) : SystemPallet A :=
  ⟨p.block_number + 1, p.nonce⟩

/-- `Pallet::inc_nonce`: read the current nonce (`unwrap_or(&zero)`), add one,
and insert it back for `who`. -/
def SystemPallet.inc_nonce {A : Type} [DecidableEq A] (p : SystemPallet A)
    (who : A) : SystemPallet A :=
  let nonce := (p.nonce who).getD 0 + 1
  ⟨p.block_number, fun x => if x = who then some nonce else p.nonce x⟩

/-- Modelled from the spec: `system.rs` exposes no public nonce getter (its
test reads the field directly); the spec's `nonce_of(account)` returns the
stored nonce or zero if absent, the same read `inc_nonce` performs. -/
def SystemPallet.nonce_of {A : Type} (p : SystemPallet A) (who : A) : Nat :=
  (p.nonce who).getD 0

/-- Proof-of-existence module state: a storage map from content to the owner
of that content. -/
structure PoePallet (A C : Type) where
  claims : C → Option A

/-- `Pallet::new`: empty claims map. -/
def PoePallet.new (A C : Type) : PoePallet A C :=
  ⟨fun _ => none⟩

/-- `Pallet::get_claim`: the owner (if any) of a claim. -/
def PoePallet.get_claim {A C : Type} (p : PoePallet A C) (claim : C) : Option A :=
  p.claims claim

/-- `Pallet::create_claim`: error if the content is already claimed, otherwise
insert `claim ↦ caller`. -/
def PoePallet.create_claim {A C : Type} [DecidableEq C] (p : PoePallet A C)
    (caller : A) (claim : C) : PoePallet A C × DispatchResult :=
  match p.get_claim claim with
  | some _ => (p, Except.error ClaimAlreadyExists)
  | none => (⟨fun x => if x = claim then some caller else p.claims x⟩, Except.ok ())

/-- `Pallet::revoke_claim`: error if the claim does not exist or the caller is
not the stored owner, otherwise remove the entry. -/
def PoePallet.revoke_claim {A C : Type} [DecidableEq A] [DecidableEq C]
    (p : PoePallet A C) (caller : A) (claim : C) : PoePallet A C × DispatchResult :=
  match p.get_claim claim with
  | none => (p, Except.error ClaimNotFound)
  | some owner =>
    if owner ≠ caller then (p, Except.error NotClaimOwner)
    else (⟨fun x => if x = claim then none else p.claims x⟩, Except.ok ())

/-- The runtime aggregates one instance of each module's state.  Modelled from
the spec for the proof-of-existence slot: `main.rs` at this stage wires only
the system and balances pallets, while the spec's Runtime (§4.5) aggregates
all three modules. -/
structure Runtime (A C : Type) where
  system : SystemPallet A
  balances : BalancesPallet A
  proof_of_existence : PoePallet A C

/-- `Runtime::new`: every module in its empty state. -/
def Runtime.new (A C : Type) : Runtime A C :=
  ⟨SystemPallet.new A, BalancesPallet.new A, PoePallet.new A C⟩

/-- Invoking the balances module's dispatch entry point on the runtime: the
balances `Dispatch` impl receives only the balances pallet state, so the other
modules' slots are carried through untouched. -/
def Runtime.dispatch_balances {A C : Type} [DecidableEq A] (r : Runtime A C)
    (caller : A) (call : BalancesCall A) : Runtime A C × DispatchResult :=
  match r.balances.dispatch caller call with
  | (b, res) => (⟨r.system, b, r.proof_of_existence⟩, res)

/-! ### Helper lemmas about the storage operations -/

theorem BalancesPallet.balance_set_self {A : Type} [DecidableEq A]
    (p : BalancesPallet A) (w : A) (amt : Nat) :
    (p.set_balance w amt).balance w = amt := by
  simp [BalancesPallet.set_balance, BalancesPallet.balance]

theorem BalancesPallet.balance_set_ne {A : Type} [DecidableEq A]
    (p : BalancesPallet A) (w x : A) (amt : Nat) (h : x ≠ w) :
    (p.set_balance w amt).balance x = p.balance x := by
  simp [BalancesPallet.set_balance, BalancesPallet.balance, h]

theorem checked_sub_some {a b c : Nat} (h : checked_sub a b = some c) :
    b ≤ a ∧ c = a - b := by
  unfold checked_sub at h
  split at h <;> simp_all

theorem checked_add_some {a b c : Nat} (h : checked_add a b = some c) :
    c = a + b ∧ a + b < U128_MOD := by
  unfold checked_add at h
  split at h <;> simp_all

/-! ### The claims -/

/-- C1: `transfer` fails with `InsufficientFunds` exactly when the checked
subtraction of the caller's balance underflows, fails with `BalanceOverflow`
exactly when the subtraction succeeds and the checked addition on the
recipient's balance overflows, and whenever it does not succeed the whole
balances map is left unchanged (no write happens before both checks pass). -/
theorem transfer_error_cases {A : Type} [DecidableEq A] (p : BalancesPallet A)
    (caller to_account : A) (amount : Nat) :
    ((p.transfer caller to_account amount).2 = Except.error InsufficientFunds ↔
      checked_sub (p.balance caller) amount = none) ∧
    ((p.transfer caller to_account amount).2 = Except.error BalanceOverflow ↔
      (checked_sub (p.balance caller) amount ≠ none ∧
        checked_add (p.balance to_account) amount = none)) ∧
    ((p.transfer caller to_account amount).2 = Except.ok () ∨
      (p.transfer caller to_account amount).1 = p) := by
  unfold BalancesPallet.transfer
  rcases hsub : checked_sub (p.balance caller) amount with _ | nb
  · simp [hsub, InsufficientFunds, BalanceOverflow]
  · rcases hadd : checked_add (p.balance to_account) amount with _ | nt
    · simp [hsub, hadd, InsufficientFunds, BalanceOverflow]
    · simp [hsub, hadd, InsufficientFunds, BalanceOverflow]

/-- C2 counterexample: starting from balance 100 at account 0, the checked
subtraction for a self-transfer of 30 succeeds, yet the post-state balance is
130, not the pre-state 100: the self-transfer is not a no-op. -/
theorem self_transfer_not_noop :
    checked_sub (((BalancesPallet.new Nat).set_balance 0 100).balance 0) 30 = some 70 ∧
    ¬ ((((BalancesPallet.new Nat).set_balance 0 100).transfer 0 0 30).1.balance 0 =
        ((BalancesPallet.new Nat).set_balance 0 100).balance 0) := by
  constructor
  · decide
  · decide

/-- C2 amended: for `caller == to == a`, when both the checked subtraction and
the checked addition on the pre-state balance succeed the transfer succeeds
and the final balance of `a` is its pre-state balance plus `amount` (the
second write, computed from the pre-transfer balance, is the one that
persists); when either check fails the transfer fails and the balances map is
unchanged. -/
theorem self_transfer_behavior {A : Type} [DecidableEq A] (p : BalancesPallet A)
    (a : A) (amount : Nat) :
    ((checked_sub (p.balance a) amount = none ∨
        checked_add (p.balance a) amount = none) ∧
      (p.transfer a a amount).1 = p ∧
      (p.transfer a a amount).2 ≠ Except.ok ()) ∨
    (checked_sub (p.balance a) amount ≠ none ∧
      checked_add (p.balance a) amount ≠ none ∧
      (p.transfer a a amount).2 = Except.ok () ∧
      (p.transfer a a amount).1.balance a = p.balance a + amount) := by
  unfold BalancesPallet.transfer
  rcases hsub : checked_sub (p.balance a) amount with _ | nb
  · left
    simp [hsub]
  · rcases hadd : checked_add (p.balance a) amount with _ | nt
    · left
      simp [hsub, hadd]
    · right
      refine ⟨by simp [hsub], by simp [hadd], by simp [hsub, hadd], ?_⟩
      simp only [hsub, hadd]
      rw [BalancesPallet.balance_set_self]
      exact (checked_add_some hadd).1

/-- C3: a successful transfer between two distinct accounts conserves the sum
of the two affected balances: post-state `balance caller + balance to` equals
the pre-state sum. -/
theorem transfer_conserves_sum {A : Type} [DecidableEq A] (p : BalancesPallet A)
    (caller to_account : A) (amount : Nat) (hne : caller ≠ to_account)
    (hok : (p.transfer caller to_account amount).2 = Except.ok ()) :
    (p.transfer caller to_account amount).1.balance caller +
        (p.transfer caller to_account amount).1.balance to_account =
      p.balance caller + p.balance to_account := by
  unfold BalancesPallet.transfer at hok ⊢
  rcases hsub : checked_sub (p.balance caller) amount with _ | nb
  · simp [hsub] at hok
  · rcases hadd : checked_add (p.balance to_account) amount with _ | nt
    · simp [hsub, hadd] at hok
    · simp only [hsub, hadd]
      rw [BalancesPallet.balance_set_self,
        BalancesPallet.balance_set_ne _ _ _ _ hne,
        BalancesPallet.balance_set_self]
      obtain ⟨hle, hnb⟩ := checked_sub_some hsub
      obtain ⟨hnt, _⟩ := checked_add_some hadd
      omega

/-- C3 witness: a concrete successful transfer of 30 from account 0 (balance
100) to account 1 (balance 0) conserves the sum of the two balances. -/
theorem transfer_conserves_sum_witness :
    (((BalancesPallet.new Nat).set_balance 0 100).transfer 0 1 30).1.balance 0 +
        (((BalancesPallet.new Nat).set_balance 0 100).transfer 0 1 30).1.balance 1 =
      ((BalancesPallet.new Nat).set_balance 0 100).balance 0 +
        ((BalancesPallet.new Nat).set_balance 0 100).balance 1 :=
  transfer_conserves_sum ((BalancesPallet.new Nat).set_balance 0 100) 0 1 30
    (by decide) (by rfl)

/-- C4: an account with no stored entry reads balance zero and nonce zero; in
particular both reads return zero for any account on freshly constructed
module states (empty maps). -/
theorem unwritten_accounts_read_zero {A : Type} (p : BalancesPallet A)
    (s : SystemPallet A) (who : A) (hb : p.balances who = none)
    (hn : s.nonce who = none) :
    p.balance who = 0 ∧ s.nonce_of who = 0 ∧
    (BalancesPallet.new A).balance who = 0 ∧
    (SystemPallet.new A).nonce_of who = 0 := by
  refine ⟨?_, ?_, ?_, ?_⟩ <;>
    simp [BalancesPallet.balance, SystemPallet.nonce_of, BalancesPallet.new,
      SystemPallet.new, hb, hn]

/-- C4 witness: on the fresh module states both reads return zero for the
concrete account 0. -/
theorem unwritten_accounts_read_zero_witness :
    (BalancesPallet.new Nat).balance 0 = 0 ∧
    (SystemPallet.new Nat).nonce_of 0 = 0 ∧
    (BalancesPallet.new Nat).balance 0 = 0 ∧
    (SystemPallet.new Nat).nonce_of 0 = 0 :=
  unwritten_accounts_read_zero (BalancesPallet.new Nat) (SystemPallet.new Nat) 0
    rfl rfl

/-- C5: the block number starts at zero, each `inc_block_number` call
increments it by exactly one, and n calls from a fresh system state yield
block number n. -/
theorem advance_block_n_times {A : Type} (p : SystemPallet A) (n : Nat) :
    ((fun q : SystemPallet A => q.inc_block_number)^[n]
        (SystemPallet.new A)).block_number = n ∧
    (SystemPallet.new A).block_number = 0 ∧
    p.inc_block_number.block_number = p.block_number + 1 := by
  refine ⟨?_, rfl, rfl⟩
  induction n with
  | zero => rfl
  | succ k ih =>
    rw [Function.iterate_succ_apply']
    show ((fun q : SystemPallet A => q.inc_block_number)^[k]
        (SystemPallet.new A)).block_number + 1 = k + 1
    rw [ih]

/-- Each `inc_nonce` call writes the successor of the current nonce (zero if
absent) into the map entry for `who`. -/
theorem nonce_of_inc_nonce {A : Type} [DecidableEq A] (s : SystemPallet A)
    (a : A) :
    (s.inc_nonce a).nonce a = some (s.nonce_of a + 1) := by
  simp [SystemPallet.inc_nonce, SystemPallet.nonce_of]

theorem nonce_of_inc_nonce_self {A : Type} [DecidableEq A] (s : SystemPallet A)
    (a : A) :
    (s.inc_nonce a).nonce_of a = s.nonce_of a + 1 := by
  simp [SystemPallet.inc_nonce, SystemPallet.nonce_of]

/-- C6: each `inc_nonce` call reads the current nonce (zero if absent),
computes its successor and writes it back as the stored map entry, and n calls
on the same account from a fresh system state yield nonce n. -/
theorem inc_nonce_n_times {A : Type} [DecidableEq A] (s : SystemPallet A)
    (a : A) (n : Nat) :
    ((fun q : SystemPallet A => q.inc_nonce a)^[n] (SystemPallet.new A)).nonce_of a
        = n ∧
    (s.inc_nonce a).nonce a = some (s.nonce_of a + 1) := by
  refine ⟨?_, by simp [SystemPallet.inc_nonce, SystemPallet.nonce_of]⟩
  induction n with
  | zero => rfl
  | succ k ih =>
    rw [Function.iterate_succ_apply', nonce_of_inc_nonce_self, ih]

/-- C7: after a successful `create_claim(owner, content)`, a second
`create_claim` on the same content by any caller fails with
`ClaimAlreadyExists` and leaves the original owner stored; moreover (for any
state `q` and caller) `create_claim` succeeds exactly when the content is not
yet a key, so each content maps to at most one owner. -/
theorem create_claim_unique {A C : Type} [DecidableEq C] (p q : PoePallet A C)
    (owner other caller : A) (content : C)
    (hok : (p.create_claim owner content).2 = Except.ok ()) :
    ((p.create_claim owner content).1.create_claim other content).2 =
        Except.error ClaimAlreadyExists ∧
    ((p.create_claim owner content).1.create_claim other content).1.get_claim
        content = some owner ∧
    ((q.create_claim caller content).2 = Except.ok () ↔
      q.get_claim content = none) := by
  refine ⟨?_, ?_, ?_⟩
  · rcases h : p.claims content with _ | o
    · simp [PoePallet.create_claim, PoePallet.get_claim, h]
    · simp [PoePallet.create_claim, PoePallet.get_claim, h] at hok
  · rcases h : p.claims content with _ | o
    · simp [PoePallet.create_claim, PoePallet.get_claim, h]
    · simp [PoePallet.create_claim, PoePallet.get_claim, h] at hok
  · rcases h : q.claims content with _ | o
    · simp [PoePallet.create_claim, PoePallet.get_claim, h]
    · simp [PoePallet.create_claim, PoePallet.get_claim, h]

/-- C7 witness: on the empty claims state, account 1 claims content 5; the
repeated claim by account 2 fails with `ClaimAlreadyExists`, owner 1 is
retained, and `create_claim` by account 3 on the empty state succeeds exactly
when content 5 is unclaimed there. -/
theorem create_claim_unique_witness :
    (((PoePallet.new Nat Nat).create_claim 1 5).1.create_claim 2 5).2 =
        Except.error ClaimAlreadyExists ∧
    (((PoePallet.new Nat Nat).create_claim 1 5).1.create_claim 2 5).1.get_claim 5 =
        some 1 ∧
    (((PoePallet.new Nat Nat).create_claim 3 5).2 = Except.ok () ↔
      (PoePallet.new Nat Nat).get_claim 5 = none) :=
  create_claim_unique (PoePallet.new Nat Nat) (PoePallet.new Nat Nat) 1 2 3 5
    (by rfl)

/-- C8: `revoke_claim` fails with `ClaimNotFound` exactly when the content is
absent, fails with `NotClaimOwner` exactly when the content is present with an
owner different from the caller, and otherwise succeeds and removes the entry;
whenever it does not succeed the claims map is completely unchanged. -/
theorem revoke_claim_cases {A C : Type} [DecidableEq A] [DecidableEq C]
    (p : PoePallet A C) (caller : A) (content : C) :
    ((p.revoke_claim caller content).2 = Except.error ClaimNotFound ↔
      p.get_claim content = none) ∧
    ((p.revoke_claim caller content).2 = Except.error NotClaimOwner ↔
      (∃ owner, p.get_claim content = some owner ∧ owner ≠ caller)) ∧
    (((p.revoke_claim caller content).2 = Except.ok () ∧
        (p.revoke_claim caller content).1.get_claim content = none) ∨
      ((p.revoke_claim caller content).2 ≠ Except.ok () ∧
        (p.revoke_claim caller content).1 = p)) := by
  rcases h : p.claims content with _ | o
  · refine ⟨?_, ?_, ?_⟩
    · simp [PoePallet.revoke_claim, PoePallet.get_claim, h, ClaimNotFound,
        NotClaimOwner]
    · simp [PoePallet.revoke_claim, PoePallet.get_claim, h, ClaimNotFound,
        NotClaimOwner]
    · right
      simp [PoePallet.revoke_claim, PoePallet.get_claim, h, ClaimNotFound]
  · by_cases ho : o = caller
    · subst ho
      refine ⟨?_, ?_, ?_⟩
      · simp [PoePallet.revoke_claim, PoePallet.get_claim, h, ClaimNotFound,
          NotClaimOwner]
      · simp [PoePallet.revoke_claim, PoePallet.get_claim, h, ClaimNotFound,
          NotClaimOwner]
      · left
        simp [PoePallet.revoke_claim, PoePallet.get_claim, h]
    · refine ⟨?_, ?_, ?_⟩
      · simp [PoePallet.revoke_claim, PoePallet.get_claim, h, ho, ClaimNotFound,
          NotClaimOwner]
      · simp [PoePallet.revoke_claim, PoePallet.get_claim, h, ho, ClaimNotFound,
          NotClaimOwner]
      · right
        simp [PoePallet.revoke_claim, PoePallet.get_claim, h, ho, NotClaimOwner]

/-- C9: a transfer, successful or not, leaves the balance of every account
other than the caller and the recipient unchanged; and a balances call routed
through the runtime's dispatch entry mutates nothing outside the balances
module: the system state (block number and nonces) and the claims state are
carried through untouched. -/
theorem transfer_frame {A C : Type} [DecidableEq A] (p : BalancesPallet A)
    (caller to_account other : A) (amount : Nat) (h1 : other ≠ caller)
    (h2 : other ≠ to_account) (r : Runtime A C) (rcaller : A)
    (call : BalancesCall A) :
    (p.transfer caller to_account amount).1.balance other = p.balance other ∧
    (r.dispatch_balances rcaller call).1.system = r.system ∧
    (r.dispatch_balances rcaller call).1.proof_of_existence =
      r.proof_of_existence := by
  refine ⟨?_, ?_, ?_⟩
  · unfold BalancesPallet.transfer
    rcases hsub : checked_sub (p.balance caller) amount with _ | nb
    · simp [hsub]
    · rcases hadd : checked_add (p.balance to_account) amount with _ | nt
      · simp [hsub, hadd]
      · simp only [hsub, hadd]
        rw [BalancesPallet.balance_set_ne _ _ _ _ h2,
          BalancesPallet.balance_set_ne _ _ _ _ h1]
  · unfold Runtime.dispatch_balances
    rcases hd : r.balances.dispatch rcaller call with ⟨b, res⟩
    rfl
  · unfold Runtime.dispatch_balances
    rcases hd : r.balances.dispatch rcaller call with ⟨b, res⟩
    rfl

/-- C9 witness: a concrete transfer does not touch account 2's balance, and a
concrete dispatched balances call leaves the fresh runtime's system and
proof-of-existence states untouched. -/
theorem transfer_frame_witness :
    (((BalancesPallet.new Nat).set_balance 0 100).transfer 0 1 30).1.balance 2 =
        ((BalancesPallet.new Nat).set_balance 0 100).balance 2 ∧
    ((Runtime.new Nat Nat).dispatch_balances 0 (BalancesCall.Transfer 1 5)).1.system =
        (Runtime.new Nat Nat).system ∧
    ((Runtime.new Nat Nat).dispatch_balances 0
        (BalancesCall.Transfer 1 5)).1.proof_of_existence =
      (Runtime.new Nat Nat).proof_of_existence :=
  transfer_frame ((BalancesPallet.new Nat).set_balance 0 100) 0 1 2 30
    (by decide) (by decide) (Runtime.new Nat Nat) 0 (BalancesCall.Transfer 1 5)

/-- C10: a transfer of amount zero between two distinct accounts of a state
whose stored balances fit in `u128` (as the Rust value type guarantees) always
succeeds, and the observable balance of every account, the caller and the
recipient included, is unchanged. -/
theorem transfer_zero_identity {A : Type} [DecidableEq A] (p : BalancesPallet A)
    (caller to_account x : A) (hne : caller ≠ to_account)
    (hwf : p.InU128Range) :
    (p.transfer caller to_account 0).2 = Except.ok () ∧
    (p.transfer caller to_account 0).1.balance x = p.balance x := by
  have hb : p.balance to_account < U128_MOD := by
    rcases h : p.balances to_account with _ | v
    · simp only [BalancesPallet.balance, h, Option.getD_none]
      exact Nat.pos_pow_of_pos 128 (by omega)
    · simpa [BalancesPallet.balance, h] using hwf to_account v h
  have hsub : checked_sub (p.balance caller) 0 = some (p.balance caller) := by
    simp [checked_sub]
  have hadd : checked_add (p.balance to_account) 0 = some (p.balance to_account) := by
    simp [checked_add, hb]
  unfold BalancesPallet.transfer
  simp only [hsub, hadd]
  refine ⟨by simp, ?_⟩
  by_cases hx2 : x = to_account
  · subst hx2
    rw [BalancesPallet.balance_set_self]
  · rw [BalancesPallet.balance_set_ne _ _ _ _ hx2]
    by_cases hx1 : x = caller
    · subst hx1
      rw [BalancesPallet.balance_set_self]
    · rw [BalancesPallet.balance_set_ne _ _ _ _ hx1]

/-- C10 witness: on the empty balances state the zero-amount transfer from
account 0 to account 1 succeeds and account 0's balance is unchanged. -/
theorem transfer_zero_identity_witness :
    ((BalancesPallet.new Nat).transfer 0 1 0).2 = Except.ok () ∧
    ((BalancesPallet.new Nat).transfer 0 1 0).1.balance 0 =
      (BalancesPallet.new Nat).balance 0 :=
  transfer_zero_identity (BalancesPallet.new Nat) 0 1 0 (by decide)
    (fun _ _ h => Option.noConfusion h)
